import Mathlib

/-!
Verification of the `toppaper` bibliographic-record pipeline.

The development shallowly embeds the Python sources of the repository:

* `search_papers.py` — the enrichment pass that attaches a `code` field to
  records by an external lookup (`search_papers_step`, `search_papers_run`);
* `json_merge.py` — the consolidation pass (`get_year`, `sortPapers`,
  `merge_json_files`);
* `json_delete.py` — the bulk delete operation (`delete_papers_by_source`);
* `papers/CVPR.py` — the legacy single-page parser
  (`parse_papers_from_html_legacy`);
* `AAAI.py` — the heuristic author-line extractor of
  `parse_paper_from_article` (`aaai_extract_authors`);
* `papers/ICLR2018_.py` — the dual-schema query-API adapter (`parse_note`,
  `get_all_papers`).

Records are JSON objects; the embedding represents them as a structure with
optional fields (a `none` field models an absent key).  External effects
(file system, network lookups, the interactive prompt) are passed in
explicitly as values, and Python exceptions are modelled with `Option` /
`Except`.
-/

/-- JSON scalar values that can occur in a record field such as `year`.
The repository stores years as JSON integers; `null` and strings model the
"missing/invalid" cases discussed in the specification. -/
inductive JVal where
  | null : JVal
  | int (n : Int) : JVal
  | str (s : String) : JVal
deriving DecidableEq, Repr

/-- A bibliographic record as persisted in the JSON stores.  Every field is
optional because a JSON object may lack any key; `authors` defaults to the
empty list.  `code = none` models a record without a `code` key and
`code = some ""` a record whose `code` key holds the empty string. -/
structure Paper where
  title : Option String := none
  authors : List String := []
  pdf_link : Option String := none
  source : Option String := none
  year : Option JVal := none
  code : Option String := none
deriving DecidableEq, Repr

/-! ### Python string primitives

The Python string operations used by the sources, re-implemented over
`List Char` so that every definition is structurally recursive and
kernel-evaluable. -/

/-- Whitespace characters recognised by Python's `str.strip` / `\s`
(ASCII fragment). -/
def isWsChar (c : Char) : Bool :=
  c == ' ' || c == '\t' || c == '\n' || c == '\r' || c == '\x0b' || c == '\x0c'

/-- Python `str.strip()`: remove whitespace from both ends. -/
def pyStrip (s : String) : String :=
  String.mk (((s.toList.dropWhile isWsChar).reverse.dropWhile isWsChar).reverse)

/-- Python `str.lower()` (ASCII fragment). -/
def pyLower (s : String) : String :=
  String.mk (s.toList.map Char.toLower)

/-- Python `str.upper()` (ASCII fragment). -/
def pyUpper (s : String) : String :=
  String.mk (s.toList.map Char.toUpper)

/-- Containment of one character list in another, as in Python's
`needle in hay`. -/
def listContainsSub (needle : List Char) : List Char → Bool
  | [] => needle.isEmpty
  | c :: cs => needle.isPrefixOf (c :: cs) || listContainsSub needle cs

/-- Python `needle in hay` on strings. -/
def pyInStr (needle hay : String) : Bool :=
  listContainsSub needle.toList hay.toList

/-- Python `s.split(',')` (keeps empty pieces, no stripping). -/
def splitCommaChars : List Char → List Char → List String
  | [], acc => [String.mk acc.reverse]
  | c :: cs, acc =>
    if c == ',' then String.mk acc.reverse :: splitCommaChars cs []
    else splitCommaChars cs (c :: acc)

/-- Python `s.split(',')` on strings. -/
def pySplitComma (s : String) : List String :=
  splitCommaChars s.toList []

/-- One step of Python `str.replace`: replace every (non-overlapping,
leftmost-first) occurrence of `pat` by `sub`.  The fuel argument is the
length of the scanned list, so it never runs out. -/
def replaceListAux (pat sub : List Char) : Nat → List Char → List Char
  | 0, cs => cs
  | _ + 1, [] => []
  | n + 1, c :: cs =>
    if pat ≠ [] && pat.isPrefixOf (c :: cs) then
      sub ++ replaceListAux pat sub n ((c :: cs).drop pat.length)
    else
      c :: replaceListAux pat sub n cs

/-- Python `s.replace(pat, sub)` (for the non-empty patterns used by the
sources). -/
def pyReplace (s pat sub : String) : String :=
  String.mk (replaceListAux pat.toList sub.toList s.toList.length s.toList)

/-- Python `s.startswith(p)`. -/
def pyStartsWith (s p : String) : Bool :=
  p.toList.isPrefixOf s.toList

/-- Python `str.isdigit()` (ASCII fragment): non-empty and all digits. -/
def pyIsDigit (s : String) : Bool :=
  !(s == "") && s.toList.all Char.isDigit

/-! ### Enrichment engine — `search_papers.py`, `main` (lines 102–146)

The loop body of `main` for one record.  The external lookup
(`search_paper_in_edge`) is passed in as the list of result URLs for the
record's title; browser restarts and pacing delays do not affect the data
and are not modelled. -/

/-- The truthiness test `paper.get("title", "")` used at line 103–104:
the effective title of a record. -/
def pyGetTitle (p : Paper) : String := p.title.getD ""

/-- The skip test at line 107: `"code" in paper and paper["code"]`.
True exactly when the record has a `code` key holding a truthy (non-empty)
string. -/
def hasTruthyCode (p : Paper) : Bool :=
  match p.code with
  | some c => !(c == "")
  | none => false

/-- Whether the run issues an external lookup for the record: the record is
reached by `search_paper_in_edge` iff its title is truthy (line 104) and the
skip test at line 107 fails. -/
def issues_lookup (p : Paper) : Bool :=
  !(pyGetTitle p == "") && !(hasTruthyCode p)

/-- The match test inside the result loop (line 134):
`"github.com" in url.lower()`. -/
def isGithubUrl (u : String) : Bool :=
  pyInStr "github.com" (pyLower u)

/-- One iteration of the `for i, paper in enumerate(papers, 1)` loop of
`main` (lines 102–146), given the URLs the lookup returned for this title.
The first URL whose lowercase form contains `github.com` is stored into
`code`; if the title is empty or the skip test fires, the record is
untouched; if no URL matches, no `code` key is written. -/
def search_papers_step (p : Paper) (urls : List String) : Paper :=
  if pyGetTitle p == "" then p
  else if hasTruthyCode p then p
  else
    match urls.find? isGithubUrl with
    | some u => { p with code := some u }
    | none => p

/-- A whole enrichment run over the store: every record is processed in
order by `search_papers_step`; `lookup` maps a title to the URLs the
external search returns for it. -/
def search_papers_run (papers : List Paper) (lookup : String → List String) : List Paper :=
  papers.map (fun p => search_papers_step p (lookup (pyGetTitle p)))

/-! ### Consolidation engine — `json_merge.py`, `merge_json_files` (lines 5–85)

`merge_json_files` concatenates the existing `papers.json` content with the
contents of all other `*.json` files, sorts the result with
`all_papers.sort(key=get_year, reverse=True)`, writes it back, and only then
deletes the consumed partial files.  Python's `list.sort` is a stable sort;
with `reverse=True` it orders keys descending while records with equal keys
keep their original relative order.  We embed it as `List.mergeSort` (stable)
with the reversed key comparison.  A `sort` over keys of mixed types raises
`TypeError` in Python; `sortPapers` returns `none` in that case. -/

/-- The sort key of `get_year` (lines 56–60): `paper.get('year')` is `None`
when the key is absent or holds JSON `null`, and `get_year` then returns
`0`; otherwise it returns the stored value unchanged. -/
def get_year (p : Paper) : JVal :=
  match p.year with
  | none => .int 0
  | some .null => .int 0
  | some v => v

/-- Rank used to order values of different kinds; Python never compares
different kinds (it raises `TypeError`), so this branch is unreachable
under the `keysComparable` guard of `sortPapers`. -/
def JVal.rank : JVal → Nat
  | .null => 0
  | .int _ => 1
  | .str _ => 2

/-- Lexicographic order on character lists by code point, which is exactly
Python's string comparison. -/
def charListLe : List Char → List Char → Bool
  | [], _ => true
  | _ :: _, [] => false
  | a :: as, b :: bs => if a = b then charListLe as bs else decide (a < b)

/-- Comparison of two sort keys: Python `<=` on two ints or two strings.
Values of different kinds are ordered by `rank`, a branch that the
`keysComparable` guard keeps unreachable. -/
def jvalLe (a b : JVal) : Bool :=
  match a, b with
  | .int x, .int y => decide (x ≤ y)
  | .str x, .str y => charListLe x.toList y.toList
  | _, _ => decide (a.rank ≤ b.rank)

/-- The comparator of the stable descending sort
`all_papers.sort(key=get_year, reverse=True)` (line 62): `a` may stay in
front of `b` iff `get_year b <= get_year a`. -/
def paperLe (a b : Paper) : Bool :=
  jvalLe (get_year b) (get_year a)

/-- Whether Python can compare all the sort keys of the list: they must all
be ints or all be strings, otherwise `list.sort` raises `TypeError`. -/
def keysComparable (l : List Paper) : Bool :=
  l.all (fun p => match get_year p with | .int _ => true | _ => false) ||
  l.all (fun p => match get_year p with | .str _ => true | _ => false)

/-- `all_papers.sort(key=get_year, reverse=True)` (line 62): the stable
descending sort of the working sequence, or `none` when Python would raise
`TypeError` on incomparable keys. -/
def sortPapers (l : List Paper) : Option (List Paper) :=
  if keysComparable l then some (l.mergeSort paperLe) else none

/-- The file-system state seen by `merge_json_files`: the parsed content of
`papers.json` (`none` when the file is absent) and the parsed contents of
the other `*.json` files, in discovery order. -/
structure MergeFS where
  canonical : Option (List Paper)
  partials : List (List Paper)
deriving DecidableEq, Repr

/-- Result of one `merge_json_files` invocation. -/
structure MergeOutcome where
  fs : MergeFS
  wroteCanonical : Bool
deriving DecidableEq, Repr

/-- The body of `merge_json_files` (lines 5–85).  `writeOk` tells whether
the `json.dump` to `papers.json` succeeds (line 66–72; on failure the
function returns before the deletion loop, so the canonical file is left in
an unspecified state, modelled as `none`, and no partial file is removed).
`deleteOk i` tells whether deleting the `i`-th partial file succeeds
(lines 74–82; a failed delete is logged and skipped). -/
def merge_json_files (fs : MergeFS) (writeOk : Bool) (deleteOk : Nat → Bool) :
    MergeOutcome :=
  if fs.partials.isEmpty then ⟨fs, false⟩
  else
    match sortPapers (fs.canonical.getD [] ++ fs.partials.flatten) with
    | none => ⟨fs, false⟩
    | some sorted =>
      if writeOk then
        ⟨⟨some sorted, (fs.partials.enum.filter (fun ip => !(deleteOk ip.1))).map (fun ip => ip.2)⟩,
          true⟩
      else
        ⟨⟨none, fs.partials⟩, false⟩

/-! ### Bulk delete — `json_delete.py`, `delete_papers_by_source` (lines 6–82) -/

/-- The removal predicate (lines 40–55): with a `year`, a record matches
when `paper.get('source') == source and paper.get('year') == year`; without
a `year`, when `paper.get('source') == source`.  An absent key compares
unequal to any string or int. -/
def delMatch (source : String) (year : Option Int) (p : Paper) : Bool :=
  match year with
  | some y => p.source == some source && p.year == some (.int y)
  | none => p.source == some source

/-- The confirmation test at lines 67–69:
`confirm.strip().lower()` must be `y` or `yes`. -/
def confirmAccepted (confirm : String) : Bool :=
  let c := pyLower (pyStrip confirm)
  c == "y" || c == "yes"

/-- Result of one `delete_papers_by_source` invocation: the persisted
store, the count reported to the operator (`none` when the "not found"
message is printed instead), whether the confirmation prompt was shown, and
whether the store was rewritten. -/
structure DelResult where
  store : List Paper
  reported : Option Nat
  prompted : Bool
  wrote : Bool
deriving DecidableEq, Repr

/-- `delete_papers_by_source` (lines 6–82) on an already-loaded store:
computes the records to keep, no-ops with a message when nothing matches
(lines 57–63), otherwise reports the count, prompts (lines 66–67), and
rewrites the store only when the operator confirms (lines 69–76). -/
def delete_papers_by_source (store : List Paper) (source : String)
    (year : Option Int) (confirm : String) : DelResult :=
  let papers_to_keep := store.filter (fun p => !(delMatch source year p))
  let deleted_count := store.length - papers_to_keep.length
  if deleted_count = 0 then ⟨store, none, false, false⟩
  else if confirmAccepted confirm then ⟨papers_to_keep, some deleted_count, true, true⟩
  else ⟨store, some deleted_count, true, false⟩

/-! ### Legacy single-page CVPR parser — `papers/CVPR.py`,
`parse_papers_from_html_legacy` (lines 86–122)

The two regular expressions of the function extract (a) the list of title
links — pairs of `href` and link text — and (b) the list of bibtex
`author = {...}` blocks, in page order.  The regex engine is an external
library; the embedding takes its two outputs (`title_matches`,
`author_blocks`) as inputs and models the pairing loop (lines 101–121)
exactly. -/

/-- Match of `\s+and\s+` at the head of a character list: one-plus
whitespace, the literal `and`, one-plus whitespace; returns the remainder
after the (greedy) match.  Whitespace cannot start `and`, so the greedy
runs are the maximal ones. -/
def matchAndSep (cs : List Char) : Option (List Char) :=
  if (cs.takeWhile isWsChar).isEmpty then none
  else
    match cs.dropWhile isWsChar with
    | 'a' :: 'n' :: 'd' :: rest =>
      if (rest.takeWhile isWsChar).isEmpty then none
      else some (rest.dropWhile isWsChar)
    | _ => none

/-- Scanner of `re.split(r"\s+and\s+", raw)`: cut the list at every
leftmost non-overlapping `\s+and\s+` match.  The fuel is the length of the
remaining input (every step consumes at least one character), so it never
runs out on the initial call. -/
def splitAndAux : Nat → List Char → List Char → List (List Char)
  | 0, cs, acc => [acc.reverse ++ cs]
  | _ + 1, [], acc => [acc.reverse]
  | n + 1, c :: cs, acc =>
    match matchAndSep (c :: cs) with
    | some rest => acc.reverse :: splitAndAux n rest []
    | none => splitAndAux n cs (c :: acc)

/-- Python `re.split(r"\s+and\s+", s)`. -/
def pySplitWsAnd (s : String) : List String :=
  (splitAndAux s.toList.length s.toList []).map String.mk

/-- Lines 110–113: `raw = author_blocks[i].strip()` followed by
`[a.strip() for a in re.split(r"\s+and\s+", raw) if a.strip()]`. -/
def parse_bibtex_authors (blk : String) : List String :=
  ((pySplitWsAnd (pyStrip blk)).map pyStrip).filter (fun a => !(a == ""))

/-- Lines 106–107: derive the PDF link from the title link's `href`. -/
def legacy_pdf_link (base_url href : String) : String :=
  let pdf_path := pyReplace (pyReplace href "/html/" "/papers/") ".html" ".pdf"
  if pyStartsWith pdf_path "http" then pdf_path else base_url ++ "/" ++ pdf_path

/-- The body of the `for i, m in enumerate(title_matches)` loop (lines
101–121) for index `i` and match `m = (href, text)`: skip the entry when
the stripped link text is empty, otherwise build the record, taking the
authors from the `i`-th bibtex block when it exists and the empty list when
`i` is past the end of `author_blocks`. -/
def legacyEntry (base_url : String) (year : Int) (author_blocks : List String)
    (i : Nat) (m : String × String) : Option Paper :=
  let title := pyStrip m.2
  if title == "" then none
  else
    some { title := some title
         , authors :=
             match author_blocks[i]? with
             | some blk => parse_bibtex_authors blk
             | none => []
         , pdf_link := some (legacy_pdf_link base_url m.1)
         , source := some "CVPR"
         , year := some (.int year)
         , code := none }

/-- `parse_papers_from_html_legacy` (lines 86–122), over the extracted
title matches and author blocks. -/
def parse_papers_from_html_legacy (title_matches : List (String × String))
    (author_blocks : List String) (base_url : String) (year : Int) : List Paper :=
  title_matches.enum.filterMap (fun im => legacyEntry base_url year author_blocks im.1 im.2)

/-! ### Heuristic author extraction — `AAAI.py`, `parse_paper_from_article`
(lines 105–151)

The author-recovery part of `parse_paper_from_article`: the element's text
is flattened to a list of non-empty stripped lines (an operation of the
markup library), and two scanning loops pick the author line.  The
embedding takes the already-extracted `title` and the `lines` as inputs and
returns the accepted line (`aaai_author_line`) and the resulting author
list (`aaai_extract_authors`). -/

/-- The page-range test `re.match(r'^\d+-\d+$', line)` (lines 123, 130,
139): the whole line is one-plus digits, a hyphen, one-plus digits. -/
def isPageRange (line : String) : Bool :=
  let cs := line.toList
  let d1 := cs.takeWhile Char.isDigit
  match cs.dropWhile Char.isDigit with
  | '-' :: rest =>
    !d1.isEmpty && !(rest.takeWhile Char.isDigit).isEmpty &&
      (rest.dropWhile Char.isDigit).isEmpty
  | _ => false

/-- Line 124 / 146: `[a.strip() for a in line.split(',') if a.strip()]`. -/
def splitCommaClean (line : String) : List String :=
  ((pySplitComma line).map pyStrip).filter (fun a => !(a == ""))

/-- Line 126 / 147 validation of a candidate author list. -/
def validAuthors (as : List String) : Bool :=
  decide (1 ≤ as.length) && as.all (fun a => decide (2 ≤ a.length))

/-- The first scanning loop (lines 111–131): walk the lines; a line
containing the title sets the `found_title` flag; after that, the first
line with a comma, length above 10, not a page range, and passing the
author validation is accepted; hitting a page-range line instead stops the
loop. Returns the accepted line. -/
def aaaiLoop1 (title : String) : Bool → List String → Option String
  | _, [] => none
  | found, line :: rest =>
    if !(title == "") && pyInStr title line then aaaiLoop1 title true rest
    else if found then
      if line.toList.contains ',' && decide (10 < line.length) then
        if !(isPageRange line) then
          if validAuthors (splitCommaClean line) then some line
          else aaaiLoop1 title found rest
        else aaaiLoop1 title found rest
      else if isPageRange line then none
      else aaaiLoop1 title found rest
    else aaaiLoop1 title found rest

/-- The fallback scanning loop (lines 134–151): walk all lines, skipping
the title line, page-range lines and lines containing `PDF`; accept the
first line with a comma, length above 10, passing the author validation,
whose pieces are not all purely numeric. Returns the accepted line. -/
def aaaiLoop2 (title : String) : List String → Option String
  | [] => none
  | line :: rest =>
    if !(title == "") && pyInStr title line then aaaiLoop2 title rest
    else if isPageRange line then aaaiLoop2 title rest
    else if pyInStr "PDF" (pyUpper line) then aaaiLoop2 title rest
    else if line.toList.contains ',' && decide (10 < line.length) then
      if validAuthors (splitCommaClean line) then
        if !((splitCommaClean line).all pyIsDigit) then some line
        else aaaiLoop2 title rest
      else aaaiLoop2 title rest
    else aaaiLoop2 title rest

/-- The line finally used for the authors: the fallback loop runs only when
the first loop accepted nothing (line 134, `if not paper_info['authors']`;
an accepted line always yields at least one author by `validAuthors`). -/
def aaai_author_line (title : String) (lines : List String) : Option String :=
  match aaaiLoop1 title false lines with
  | some l => some l
  | none => aaaiLoop2 title lines

/-- The author list `parse_paper_from_article` stores: the comma-split of
the accepted line, or the empty list when both loops fail. -/
def aaai_extract_authors (title : String) (lines : List String) : List String :=
  match aaai_author_line title lines with
  | some l => splitCommaClean l
  | none => []

/-! ### Query-API adapter — `papers/ICLR2018_.py`, `UnifiedICLRScraper`

`__init__` (lines 18–35) selects the API version from the year
(`year >= 2024` gives version 2, otherwise 1); `_parse_note` (lines 80–119)
reads one note under the selected schema — version 2 wraps every content
entry in a `{value: ...}` map, version 1 stores the values flat; and
`get_all_papers` (lines 37–78) wraps the whole lookup in a `try` that
returns the empty list on any error, while a `try` around each note skips
notes whose parse raises. -/

/-- Values of the OpenReview metadata service: JSON-like, including the
wrapped `{value: ...}` maps of API version 2. -/
inductive OVal where
  | null : OVal
  | int (n : Int) : OVal
  | str (s : String) : OVal
  | list (xs : List OVal) : OVal
  | obj (kvs : List (String × OVal)) : OVal
deriving Repr

/-- A note returned by the service: its id and, when the object has a
`content` attribute (the `hasattr` test at lines 92 and 109), the content
map. -/
structure Note where
  id : String
  content : Option (List (String × OVal))

/-- The record dictionary `_parse_note` builds (lines 82–88); `title` and
`authors` hold whatever value the content map provides. -/
structure NoteInfo where
  title : OVal
  authors : OVal
  pdf_link : String
  source : String
  year : Int

/-- Python dict indexing / containment used on the content map. -/
def oDictGet (kvs : List (String × OVal)) (k : String) : Option OVal :=
  (kvs.find? (fun kv => kv.1 == k)).map (fun kv => kv.2)

/-- Python `v.get(k, dflt)`: succeeds only when `v` is a dict, otherwise an
`AttributeError` is raised (modelled as `Except.error`). -/
def oGetAttrValue (v : OVal) (k : String) (dflt : OVal) : Except Unit OVal :=
  match v with
  | .obj kvs => .ok ((oDictGet kvs k).getD dflt)
  | _ => .error ()

/-- Python truthiness of a service value (used by
`if paper_info['title']` at line 61 and `if pdf_val` at line 104). -/
def pyTruthyOVal : OVal → Bool
  | .null => false
  | .int n => !(n == 0)
  | .str s => !(s == "")
  | .list xs => !xs.isEmpty
  | .obj kvs => !kvs.isEmpty

/-- The schema selection of `__init__` (lines 23–35): version 2 for
`year >= 2024`, version 1 otherwise. -/
def api_version (year : Int) : Nat :=
  if 2024 ≤ year then 2 else 1

/-- The PDF URL built at lines 105 and 117. -/
def openreviewPdfUrl (id : String) : String :=
  "https://openreview.net/pdf?id=" ++ id

/-- Reading one field under the version-2 schema (lines 94–105):
`note.content[k].get('value', dflt)` when the key is present, the default
otherwise; raises when the entry is not a wrapped map. -/
def v2_field (content : List (String × OVal)) (k : String) (dflt : OVal) :
    Except Unit OVal :=
  match oDictGet content k with
  | some v => oGetAttrValue v "value" dflt
  | none => .ok dflt

/-- `_parse_note` (lines 80–119).  With no `content` attribute the initial
record is returned unchanged.  Version 2 (`year >= 2024`) reads `title`,
`authors` and `pdf` through the wrapped maps — any non-wrapped entry raises,
which the caller turns into a skipped note; the `pdf` link is set only when
the wrapped `pdf` value is truthy.  Version 1 reads the flat map directly
and sets the link whenever a `pdf` key exists. -/
def parse_note (year : Int) (note : Note) : Except Unit NoteInfo :=
  match note.content with
  | none => .ok ⟨.str "", .list [], "", "ICLR", year⟩
  | some content =>
    if api_version year == 2 then
      match v2_field content "title" (.str ""), v2_field content "authors" (.list []),
            v2_field content "pdf" (.str "") with
      | .ok t, .ok a, .ok pdf_val =>
        .ok ⟨t, a, if pyTruthyOVal pdf_val then openreviewPdfUrl note.id else "",
             "ICLR", year⟩
      | .error e, _, _ => .error e
      | _, .error e, _ => .error e
      | _, _, .error e => .error e
    else
      .ok ⟨(oDictGet content "title").getD (.str ""),
           (oDictGet content "authors").getD (.list []),
           if (oDictGet content "pdf").isSome then openreviewPdfUrl note.id else "",
           "ICLR", year⟩

/-- `get_all_papers` (lines 37–78).  The `lookup` argument models the
`get_all_notes` / `iterget_notes` call: `Except.error` when it raises
(timeout or any other failure), in which case the outer `except` returns
the empty list (lines 74–78).  Each note is parsed inside its own
`try`/`continue` (lines 58–69) and kept only when its title is truthy. -/
def get_all_papers (year : Int) (lookup : Except Unit (List Note)) : List NoteInfo :=
  match lookup with
  | .error _ => []
  | .ok notes =>
    notes.foldl
      (fun acc note =>
        match parse_note year note with
        | .error _ => acc
        | .ok info => if pyTruthyOVal info.title then acc ++ [info] else acc)
      []

/-- Erase the `code` field of a record (used to state frame properties of
the enrichment pass). -/
def stripCode (p : Paper) : Paper := { p with code := none }

/-! ## Claims -/

/-- C1, counterexample.  A record whose `code` key holds the empty string is
not skipped: the run reaches the lookup for it (`issues_lookup` is true,
because the skip test at `search_papers.py` line 107 requires a truthy
value), and a github result overwrites its `code` value.  This falsifies
the claim that any record carrying a `code` key — empty or not — is skipped
with its `code` left unchanged. -/
theorem c1_empty_code_not_skipped :
    issues_lookup { title := some "T", code := some "" } = true ∧
    (search_papers_step { title := some "T", code := some "" }
        ["https://github.com/u/r"]).code = some "https://github.com/u/r" := by
  exact ⟨rfl, rfl⟩

/-- C1, amended: only records whose `code` key holds a non-empty string are
skipped unconditionally by an enrichment run — no lookup is issued for them
and the record (in particular its `code` value) is unchanged; a record with
an empty-string `code` is processed again. -/
theorem c1_nonempty_code_skipped (p : Paper) (urls : List String) (c : String)
    (hc : p.code = some c) (hne : c ≠ "") :
    issues_lookup p = false ∧ search_papers_step p urls = p := by
  have ht : hasTruthyCode p = true := by simp [hasTruthyCode, hc, hne]
  refine ⟨by simp [issues_lookup, ht], ?_⟩
  simp [search_papers_step, ht]

/-- Witness for C1: the amended theorem applied to a concrete record with a
non-empty `code`. -/
theorem c1_nonempty_code_skipped_witness :
    issues_lookup { title := some "T", code := some "https://github.com/u/r" } = false ∧
    search_papers_step { title := some "T", code := some "https://github.com/u/r" }
      ["https://example.com/x"] =
      { title := some "T", code := some "https://github.com/u/r" } :=
  c1_nonempty_code_skipped _ _ "https://github.com/u/r" rfl (by decide)

/-- C3, counterexample.  A record without a `code` key whose lookup returns
no code-hosting URI ends the run still without a `code` key (not with
`code = ""`), and a subsequent run issues a lookup for it again.  This
falsifies the claim that such records end with `code` set to the empty
string. -/
theorem c3_no_github_leaves_code_absent :
    (search_papers_step { title := some "T" } ["https://example.com/a"]).code = none ∧
    issues_lookup (search_papers_step { title := some "T" } ["https://example.com/a"]) = true := by
  exact ⟨rfl, rfl⟩

/-- C3, amended: a record processed by an enrichment run that lacked a
`code` key, whose lookup returns no URL containing `github.com`, is left
completely unchanged — in particular it still has no `code` key, so a
subsequent run issues a lookup for it again. -/
theorem c3_no_github_no_marker (p : Paper) (urls : List String)
    (hc : p.code = none) (hng : ∀ u ∈ urls, isGithubUrl u = false) :
    search_papers_step p urls = p ∧
    issues_lookup (search_papers_step p urls) = issues_lookup p := by
  have hfind : urls.find? isGithubUrl = none :=
    List.find?_eq_none.mpr (by intro u hu; simp [hng u hu])
  have ht : hasTruthyCode p = false := by simp [hasTruthyCode, hc]
  have hstep : search_papers_step p urls = p := by
    unfold search_papers_step
    split
    · rfl
    · rw [ht]; simp [hfind]
  exact ⟨hstep, by rw [hstep]⟩

/-- Witness for C3: the amended theorem applied to a concrete record and a
lookup result without code-hosting URIs. -/
theorem c3_no_github_no_marker_witness :
    search_papers_step { title := some "T" } ["https://example.com/a"] =
      { title := some "T" } ∧
    issues_lookup (search_papers_step { title := some "T" } ["https://example.com/a"]) =
      issues_lookup { title := some "T" } :=
  c3_no_github_no_marker _ _ rfl (by decide)

/-- C10: an enrichment run is a frame over everything but `code` — the store
keeps its length and order, and every record keeps its `title`, `authors`,
`pdf_link`, `source` and `year` (erasing `code` on both sides yields equal
stores). -/
theorem c10_enrichment_frame (papers : List Paper) (lookup : String → List String) :
    (search_papers_run papers lookup).map stripCode = papers.map stripCode ∧
    (search_papers_run papers lookup).length = papers.length := by
  have hstep : ∀ p urls, stripCode (search_papers_step p urls) = stripCode p := by
    intro p urls
    unfold search_papers_step
    split
    · rfl
    · split
      · rfl
      · split
        · rfl
        · rfl
  constructor
  · unfold search_papers_run
    rw [List.map_map]
    exact List.map_congr_left (fun p _ => hstep p _)
  · unfold search_papers_run
    rw [List.length_map]

/-! ### Order properties of the sort comparator -/

theorem charListLe_refl : ∀ cs : List Char, charListLe cs cs = true
  | [] => rfl
  | c :: cs => by simp [charListLe, charListLe_refl cs]

theorem charListLe_trans : ∀ (a b c : List Char),
    charListLe a b = true → charListLe b c = true → charListLe a c = true
  | [], _, _, _, _ => rfl
  | _ :: _, [], _, h1, _ => by simp [charListLe] at h1
  | _ :: _, _ :: _, [], _, h2 => by simp [charListLe] at h2
  | x :: xs, y :: ys, z :: zs, h1, h2 => by
    simp only [charListLe] at h1 h2 ⊢
    by_cases hxy : x = y
    · subst hxy
      by_cases hxz : x = z
      · subst hxz
        simp only [if_pos rfl] at h1 h2 ⊢
        exact charListLe_trans xs ys zs h1 h2
      · simp only [if_pos rfl] at h1
        simp only [if_neg hxz] at h2 ⊢
        exact h2
    · simp only [if_neg hxy] at h1
      by_cases hyz : y = z
      · subst hyz
        simp only [if_neg hxy] at h1 ⊢
        exact h1
      · simp only [if_neg hyz] at h2
        have hlt : x < z := lt_trans (of_decide_eq_true h1) (of_decide_eq_true h2)
        have hxz : x ≠ z := ne_of_lt hlt
        simp only [if_neg hxz]
        exact decide_eq_true hlt

theorem charListLe_total : ∀ (a b : List Char),
    (charListLe a b || charListLe b a) = true
  | [], _ => by simp [charListLe]
  | _ :: _, [] => by simp [charListLe]
  | x :: xs, y :: ys => by
    simp only [charListLe]
    by_cases hxy : x = y
    · subst hxy
      simp only [if_pos rfl]
      exact charListLe_total xs ys
    · simp only [if_neg hxy, if_neg (Ne.symm hxy)]
      rcases lt_or_gt_of_ne hxy with h | h
      · simp [decide_eq_true h]
      · simp [decide_eq_true h]

theorem jvalLe_refl (v : JVal) : jvalLe v v = true := by
  cases v <;> simp [jvalLe, charListLe_refl]

theorem jvalLe_trans (a b c : JVal)
    (h1 : jvalLe a b = true) (h2 : jvalLe b c = true) : jvalLe a c = true := by
  cases a <;> cases b <;> cases c <;>
    simp_all only [jvalLe, JVal.rank, decide_eq_true_eq] <;>
    first
      | rfl
      | omega
      | exact le_trans h1 h2
      | exact charListLe_trans _ _ _ h1 h2

theorem jvalLe_total (a b : JVal) : (jvalLe a b || jvalLe b a) = true := by
  cases a <;> cases b <;>
    simp_all only [jvalLe, JVal.rank, Bool.or_eq_true, decide_eq_true_eq] <;>
    first
      | omega
      | exact Or.inl trivial
      | simpa using charListLe_total _ _

theorem paperLe_trans (a b c : Paper)
    (h1 : paperLe a b = true) (h2 : paperLe b c = true) : paperLe a c = true :=
  jvalLe_trans _ _ _ h2 h1

theorem paperLe_total (a b : Paper) : (paperLe a b || paperLe b a) = true := by
  have := jvalLe_total (get_year b) (get_year a)
  unfold paperLe
  rcases Bool.or_eq_true_iff.mp this with h | h
  · simp [h]
  · simp [h]

/-- C4, amended: whenever the consolidation sort succeeds (in particular on
any store whose effective `year` keys all compare, e.g. all integers), the
output is a permutation of the concatenated input, it is sorted by the
`get_year` key descending, and it is stable — for every key value the
subsequence of records carrying that key is exactly the one of the input;
a record whose `year` key is missing or holds JSON `null` gets sort key
`0`.  (A record with a year of any other type keeps that raw value as its
key — it does not sort as `0`; see the counterexample.) -/
theorem c4_sort_descending_stable (l out : List Paper) (h : sortPapers l = some out) :
    out.Perm l ∧
    out.Pairwise (fun a b => paperLe a b = true) ∧
    (∀ k : JVal, out.filter (fun p => get_year p == k) =
      l.filter (fun p => get_year p == k)) ∧
    (∀ p : Paper, p.year = none ∨ p.year = some .null → get_year p = .int 0) := by
  have hout : out = List.mergeSort l paperLe := by
    unfold sortPapers at h
    split at h
    · exact (Option.some.inj h).symm
    · cases h
  subst hout
  refine ⟨List.mergeSort_perm l paperLe, List.sorted_mergeSort paperLe_trans paperLe_total l,
    ?_, ?_⟩
  · intro k
    have hall : ∀ a ∈ l.filter (fun p => get_year p == k), get_year a == k := by
      intro a ha
      have h3 := List.of_mem_filter ha
      exact h3
    have hpw : (l.filter (fun p => get_year p == k)).Pairwise
        (fun a b => paperLe a b = true) := by
      apply List.pairwise_of_forall_mem_list
      intro a ha b hb
      have hka : get_year a = k := by simpa using hall a ha
      have hkb : get_year b = k := by simpa using hall b hb
      unfold paperLe
      rw [hka, hkb]
      exact jvalLe_refl k
    have hsub : List.Sublist (l.filter (fun p => get_year p == k))
        (List.mergeSort l paperLe) :=
      List.sublist_mergeSort paperLe_trans paperLe_total hpw (List.filter_sublist l)
    have hsub2 : List.Sublist (l.filter (fun p => get_year p == k))
        ((List.mergeSort l paperLe).filter (fun p => get_year p == k)) := by
      have h2 := hsub.filter (fun p => get_year p == k)
      rwa [List.filter_eq_self.mpr hall] at h2
    have hperm : List.Perm ((List.mergeSort l paperLe).filter (fun p => get_year p == k))
        (l.filter (fun p => get_year p == k)) :=
      (List.mergeSort_perm l paperLe).filter _
    exact (hsub2.eq_of_length hperm.length_eq.symm).symm
  · intro p hp
    rcases hp with hp | hp <;> simp [get_year, hp]

unseal List.merge List.mergeSort in
/-- Witness for C4: the amended theorem applied to a concrete three-record
store with integer years `2019, 2021, 2021`; the sort puts the two
2021-records first, in their original relative order. -/
theorem c4_sort_descending_stable_witness :
    ([⟨some "B", [], none, none, some (.int 2021), none⟩,
      ⟨some "C", [], none, none, some (.int 2021), none⟩,
      ⟨some "A", [], none, none, some (.int 2019), none⟩] : List Paper).Perm
      [⟨some "A", [], none, none, some (.int 2019), none⟩,
       ⟨some "B", [], none, none, some (.int 2021), none⟩,
       ⟨some "C", [], none, none, some (.int 2021), none⟩] ∧
    ([⟨some "B", [], none, none, some (.int 2021), none⟩,
      ⟨some "C", [], none, none, some (.int 2021), none⟩,
      ⟨some "A", [], none, none, some (.int 2019), none⟩] : List Paper).Pairwise
      (fun a b => paperLe a b = true) ∧
    (∀ k : JVal,
      ([⟨some "B", [], none, none, some (.int 2021), none⟩,
        ⟨some "C", [], none, none, some (.int 2021), none⟩,
        ⟨some "A", [], none, none, some (.int 2019), none⟩] : List Paper).filter
          (fun p => get_year p == k) =
      ([⟨some "A", [], none, none, some (.int 2019), none⟩,
        ⟨some "B", [], none, none, some (.int 2021), none⟩,
        ⟨some "C", [], none, none, some (.int 2021), none⟩] : List Paper).filter
          (fun p => get_year p == k)) ∧
    (∀ p : Paper, p.year = none ∨ p.year = some .null → get_year p = .int 0) :=
  c4_sort_descending_stable
    [⟨some "A", [], none, none, some (.int 2019), none⟩,
     ⟨some "B", [], none, none, some (.int 2021), none⟩,
     ⟨some "C", [], none, none, some (.int 2021), none⟩] _ rfl

unseal List.merge List.mergeSort in
/-- C4, counterexample to the "missing or invalid year sorts with key 0"
clause: two records whose `year` holds a string (an invalid year).  If both
sorted with key `0` the stable sort would keep their input order `A, B`;
the code instead uses the raw strings as keys and sorts them descending to
`B, A`, and the key of the first record is the string itself, not `0`. -/
theorem c4_invalid_year_not_zero :
    sortPapers [⟨some "A", [], none, none, some (.str "a"), none⟩,
                ⟨some "B", [], none, none, some (.str "b"), none⟩] =
      some [⟨some "B", [], none, none, some (.str "b"), none⟩,
            ⟨some "A", [], none, none, some (.str "a"), none⟩] ∧
    get_year ⟨some "A", [], none, none, some (.str "a"), none⟩ ≠ .int 0 := by
  exact ⟨rfl, by decide⟩

unseal List.merge List.mergeSort in
/-- C2, counterexample.  Two records with the same title (hence equal under
any normalization) and the same year, one in the canonical store and one in
a partial collection: after the (successful) consolidation run the new
canonical store holds both of them as two distinct entries — consolidation
performs no collapsing by title at all. -/
theorem c2_equal_titles_not_collapsed :
    (merge_json_files
        ⟨some [⟨some "Same Title", ["X"], none, none, some (.int 2020), none⟩],
         [[⟨some "Same Title", ["Y"], none, none, some (.int 2020), none⟩]]⟩
        true (fun _ => true)).fs.canonical =
      some [⟨some "Same Title", ["X"], none, none, some (.int 2020), none⟩,
            ⟨some "Same Title", ["Y"], none, none, some (.int 2020), none⟩] ∧
    (⟨some "Same Title", ["X"], none, none, some (.int 2020), none⟩ : Paper).title =
      (⟨some "Same Title", ["Y"], none, none, some (.int 2020), none⟩ : Paper).title ∧
    (⟨some "Same Title", ["X"], none, none, some (.int 2020), none⟩ : Paper) ≠
      (⟨some "Same Title", ["Y"], none, none, some (.int 2020), none⟩ : Paper) := by
  refine ⟨rfl, rfl, by decide⟩

/-- C2, amended: consolidation does not deduplicate — whenever the run
writes a new canonical store, that store is a permutation of the entire
concatenated input (canonical entries followed by all partial entries), so
records sharing a normalized title all survive as separate entries. -/
theorem c2_merge_is_permutation (fs : MergeFS) (w : Bool) (dok : Nat → Bool)
    (hw : (merge_json_files fs w dok).wroteCanonical = true) :
    ∃ out, (merge_json_files fs w dok).fs.canonical = some out ∧
      out.Perm (fs.canonical.getD [] ++ fs.partials.flatten) := by
  by_cases hpe : fs.partials.isEmpty
  · simp only [merge_json_files, if_pos hpe] at hw
    cases hw
  · rcases hs : sortPapers (fs.canonical.getD [] ++ fs.partials.flatten) with _ | sorted
    · simp only [merge_json_files, if_neg hpe, hs] at hw
      cases hw
    · rcases w with _ | _
      · simp [merge_json_files, hpe, hs] at hw
      · simp only [merge_json_files, if_neg hpe, hs, if_true]
        refine ⟨sorted, rfl, ?_⟩
        have hout : sorted =
            List.mergeSort (fs.canonical.getD [] ++ fs.partials.flatten) paperLe := by
          unfold sortPapers at hs
          split at hs
          · exact (Option.some.inj hs).symm
          · cases hs
        subst hout
        exact List.mergeSort_perm _ _

unseal List.merge List.mergeSort in
/-- Witness for C2's amended theorem: a concrete successful consolidation
of a one-record canonical store with a one-record partial collection. -/
theorem c2_merge_is_permutation_witness :
    ∃ out, (merge_json_files
        ⟨some [⟨some "P", [], none, none, some (.int 2021), none⟩],
         [[⟨some "Q", [], none, none, some (.int 2022), none⟩]]⟩
        true (fun _ => true)).fs.canonical = some out ∧
      out.Perm ((some [⟨some "P", [], none, none, some (.int 2021), none⟩] :
          Option (List Paper)).getD [] ++
        [[⟨some "Q", [], none, none, some (.int 2022), none⟩]].flatten) :=
  c2_merge_is_permutation
    ⟨some [⟨some "P", [], none, none, some (.int 2021), none⟩],
     [[⟨some "Q", [], none, none, some (.int 2022), none⟩]]⟩
    true (fun _ => true) rfl

/-- C5: the partial collections are deleted only after a successful write of
the new canonical store — whenever the run did not write the canonical file
(in particular whenever the write fails, `w = false`), every partial input
file is still present, untouched and in order. -/
theorem c5_partials_survive_failed_write (fs : MergeFS) (w : Bool) (dok : Nat → Bool) :
    ((merge_json_files fs w dok).wroteCanonical = false →
      (merge_json_files fs w dok).fs.partials = fs.partials) ∧
    (w = false → (merge_json_files fs w dok).wroteCanonical = false) := by
  by_cases hpe : fs.partials.isEmpty
  · simp [merge_json_files, hpe]
  · rcases hs : sortPapers (fs.canonical.getD [] ++ fs.partials.flatten) with _ | sorted
    · simp [merge_json_files, hpe, hs]
    · rcases w with _ | _
      · simp [merge_json_files, hpe, hs]
      · simp [merge_json_files, hpe, hs]

unseal List.merge List.mergeSort in
/-- Witness for C5: a concrete run whose canonical write fails leaves the
partial collection in place and reports no write. -/
theorem c5_partials_survive_failed_write_witness :
    (merge_json_files
        ⟨some [⟨some "P", [], none, none, some (.int 2021), none⟩],
         [[⟨some "Q", [], none, none, some (.int 2022), none⟩]]⟩
        false (fun _ => true)).fs.partials =
      [[⟨some "Q", [], none, none, some (.int 2022), none⟩]] ∧
    (merge_json_files
        ⟨some [⟨some "P", [], none, none, some (.int 2021), none⟩],
         [[⟨some "Q", [], none, none, some (.int 2022), none⟩]]⟩
        false (fun _ => true)).wroteCanonical = false := by
  have h := c5_partials_survive_failed_write
    ⟨some [⟨some "P", [], none, none, some (.int 2021), none⟩],
     [[⟨some "Q", [], none, none, some (.int 2022), none⟩]]⟩
    false (fun _ => true)
  exact ⟨h.1 (h.2 rfl), h.2 rfl⟩

/-- Splitting a list by a predicate: the kept and the dropped records
together account for the whole length. -/
theorem length_filter_not_add_length_filter (p : α → Bool) :
    ∀ l : List α, (l.filter (fun a => !(p a))).length + (l.filter p).length = l.length
  | [] => rfl
  | a :: l => by
    have ih := length_filter_not_add_length_filter p l
    rcases h : p a with _ | _ <;>
      simp only [List.filter_cons, h, Bool.not_false, Bool.not_true, if_true, if_false,
        List.length_cons, Bool.false_eq_true, Bool.true_eq_false, ite_false, ite_true] <;>
      omega

/-- C6: the bulk delete is gated.  When no record matches, the operation
reports nothing, never prompts, and leaves the store untouched.  When some
records match, the matching count is reported and the prompt is shown, and
if the operator declines the confirmation the persisted store keeps exactly
its original records and nothing is written. -/
theorem c6_delete_confirmation_gate (store : List Paper) (source : String)
    (year : Option Int) (confirm : String) :
    ((store.filter (delMatch source year)).length = 0 →
      delete_papers_by_source store source year confirm = ⟨store, none, false, false⟩) ∧
    ((store.filter (delMatch source year)).length ≠ 0 →
      (delete_papers_by_source store source year confirm).reported =
        some (store.filter (delMatch source year)).length ∧
      (delete_papers_by_source store source year confirm).prompted = true ∧
      (confirmAccepted confirm = false →
        (delete_papers_by_source store source year confirm).store = store ∧
        (delete_papers_by_source store source year confirm).wrote = false)) := by
  have hlen : store.length -
      (store.filter (fun p => !(delMatch source year p))).length =
      (store.filter (delMatch source year)).length := by
    have h := length_filter_not_add_length_filter (delMatch source year) store
    omega
  constructor
  · intro h0
    unfold delete_papers_by_source
    rw [if_pos (hlen.trans h0)]
  · intro hne
    have hdc : ¬(store.length -
        (store.filter (fun p => !(delMatch source year p))).length = 0) := by
      rw [hlen]; exact hne
    unfold delete_papers_by_source
    rw [if_neg hdc]
    rcases hc : confirmAccepted confirm with _ | _
    · rw [if_neg (by simp [hc])]
      exact ⟨congrArg some hlen, rfl, fun _ => ⟨rfl, rfl⟩⟩
    · rw [if_pos (by simp [hc])]
      exact ⟨congrArg some hlen, rfl, fun hcf => nomatch hcf⟩

/-- Witness for C6, on the specification's own scenario: a store with three
`CVPR`/2020 records and one other record; deleting `source="CVPR",
year=2020` and answering `n` reports the count 3, prompts, and leaves the
store exactly as it was; deleting a source with no matches is a silent
no-op. -/
theorem c6_delete_confirmation_gate_witness :
    (delete_papers_by_source
        [⟨some "P1", [], none, some "CVPR", some (.int 2020), none⟩,
         ⟨some "P2", [], none, some "CVPR", some (.int 2020), none⟩,
         ⟨some "P3", [], none, some "CVPR", some (.int 2020), none⟩,
         ⟨some "P4", [], none, some "ICML", some (.int 2021), none⟩]
        "CVPR" (some 2020) "n").reported = some 3 ∧
    (delete_papers_by_source
        [⟨some "P1", [], none, some "CVPR", some (.int 2020), none⟩,
         ⟨some "P2", [], none, some "CVPR", some (.int 2020), none⟩,
         ⟨some "P3", [], none, some "CVPR", some (.int 2020), none⟩,
         ⟨some "P4", [], none, some "ICML", some (.int 2021), none⟩]
        "CVPR" (some 2020) "n").prompted = true ∧
    (delete_papers_by_source
        [⟨some "P1", [], none, some "CVPR", some (.int 2020), none⟩,
         ⟨some "P2", [], none, some "CVPR", some (.int 2020), none⟩,
         ⟨some "P3", [], none, some "CVPR", some (.int 2020), none⟩,
         ⟨some "P4", [], none, some "ICML", some (.int 2021), none⟩]
        "CVPR" (some 2020) "n").store =
      [⟨some "P1", [], none, some "CVPR", some (.int 2020), none⟩,
       ⟨some "P2", [], none, some "CVPR", some (.int 2020), none⟩,
       ⟨some "P3", [], none, some "CVPR", some (.int 2020), none⟩,
       ⟨some "P4", [], none, some "ICML", some (.int 2021), none⟩] ∧
    delete_papers_by_source
        [⟨some "P4", [], none, some "ICML", some (.int 2021), none⟩]
        "CVPR" none "y" =
      ⟨[⟨some "P4", [], none, some "ICML", some (.int 2021), none⟩], none, false, false⟩ := by
  have h := c6_delete_confirmation_gate
    [⟨some "P1", [], none, some "CVPR", some (.int 2020), none⟩,
     ⟨some "P2", [], none, some "CVPR", some (.int 2020), none⟩,
     ⟨some "P3", [], none, some "CVPR", some (.int 2020), none⟩,
     ⟨some "P4", [], none, some "ICML", some (.int 2021), none⟩]
    "CVPR" (some 2020) "n"
  have h2 := c6_delete_confirmation_gate
    [⟨some "P4", [], none, some "ICML", some (.int 2021), none⟩] "CVPR" none "y"
  refine ⟨?_, (h.2 (by decide)).2.1, ((h.2 (by decide)).2.2 (by decide)).1, h2.1 (by decide)⟩
  · exact (h.2 (by decide)).1

/-- C7: in the legacy single-page parser the pairing is positional — the
record built from the `i`-th title match takes its authors from the `i`-th
bibtex author block; when the title matches outnumber the author blocks,
every trailing title (index at or beyond the block count) still yields a
record, with an empty author list, and the parse is total (no error). -/
theorem c7_legacy_positional_pairing (title_matches : List (String × String))
    (author_blocks : List String) (base_url : String) (year : Int)
    (i : Nat) (href t : String)
    (hm : title_matches[i]? = some (href, t)) (hne : (pyStrip t == "") = false) :
    ∃ p : Paper,
      legacyEntry base_url year author_blocks i (href, t) = some p ∧
      p ∈ parse_papers_from_html_legacy title_matches author_blocks base_url year ∧
      p.title = some (pyStrip t) ∧
      (∀ blk, author_blocks[i]? = some blk → p.authors = parse_bibtex_authors blk) ∧
      (author_blocks.length ≤ i → p.authors = []) := by
  have hmem : (i, (href, t)) ∈ title_matches.enum := by
    apply List.getElem?_mem
    rw [List.getElem?_enum, hm]
    rfl
  rcases hab : author_blocks[i]? with _ | blk
  · refine ⟨{ title := some (pyStrip t), authors := []
            , pdf_link := some (legacy_pdf_link base_url href)
            , source := some "CVPR", year := some (.int year), code := none }, ?_, ?_, rfl, ?_, ?_⟩
    · simp [legacyEntry, hne, hab]
    · apply List.mem_filterMap.mpr
      exact ⟨(i, (href, t)), hmem, by simp [legacyEntry, hne, hab]⟩
    · intro blk hblk
      cases hblk
    · intro _
      rfl
  · refine ⟨{ title := some (pyStrip t), authors := parse_bibtex_authors blk
            , pdf_link := some (legacy_pdf_link base_url href)
            , source := some "CVPR", year := some (.int year), code := none }, ?_, ?_, rfl, ?_, ?_⟩
    · simp [legacyEntry, hne, hab]
    · apply List.mem_filterMap.mpr
      exact ⟨(i, (href, t)), hmem, by simp [legacyEntry, hne, hab]⟩
    · intro blk2 hblk
      cases hblk
      rfl
    · intro hle
      have : author_blocks[i]? = none := List.getElem?_eq_none hle
      rw [hab] at this
      cases this

/-- Witness for C7: a concrete page with two title links and a single
bibtex author block — the first title is paired with the block, the second
(trailing) title is past the end of the block list. -/
theorem c7_legacy_positional_pairing_witness :
    (∃ p : Paper,
      legacyEntry "https://openaccess.thecvf.com" 2013 ["X Alpha and Y Beta"] 0
          ("content_cvpr_2013/html/a.html", "Paper A") = some p ∧
      p ∈ parse_papers_from_html_legacy
          [("content_cvpr_2013/html/a.html", "Paper A"),
           ("content_cvpr_2013/html/b.html", "Paper B")]
          ["X Alpha and Y Beta"] "https://openaccess.thecvf.com" 2013 ∧
      p.title = some (pyStrip "Paper A") ∧
      (∀ blk, (["X Alpha and Y Beta"] : List String)[0]? = some blk →
        p.authors = parse_bibtex_authors blk) ∧
      ((["X Alpha and Y Beta"] : List String).length ≤ 0 → p.authors = [])) ∧
    (∃ p : Paper,
      legacyEntry "https://openaccess.thecvf.com" 2013 ["X Alpha and Y Beta"] 1
          ("content_cvpr_2013/html/b.html", "Paper B") = some p ∧
      p ∈ parse_papers_from_html_legacy
          [("content_cvpr_2013/html/a.html", "Paper A"),
           ("content_cvpr_2013/html/b.html", "Paper B")]
          ["X Alpha and Y Beta"] "https://openaccess.thecvf.com" 2013 ∧
      p.title = some (pyStrip "Paper B") ∧
      (∀ blk, (["X Alpha and Y Beta"] : List String)[1]? = some blk →
        p.authors = parse_bibtex_authors blk) ∧
      ((["X Alpha and Y Beta"] : List String).length ≤ 1 → p.authors = [])) :=
  ⟨c7_legacy_positional_pairing
      [("content_cvpr_2013/html/a.html", "Paper A"),
       ("content_cvpr_2013/html/b.html", "Paper B")]
      ["X Alpha and Y Beta"] "https://openaccess.thecvf.com" 2013 0
      "content_cvpr_2013/html/a.html" "Paper A" rfl (by decide),
   c7_legacy_positional_pairing
      [("content_cvpr_2013/html/a.html", "Paper A"),
       ("content_cvpr_2013/html/b.html", "Paper B")]
      ["X Alpha and Y Beta"] "https://openaccess.thecvf.com" 2013 1
      "content_cvpr_2013/html/b.html" "Paper B" rfl (by decide)⟩

/-- A line accepted by the first AAAI scanning loop is never a page-range
line: the acceptance branch requires the page-range test to fail (and a
page-range line cannot contain the required comma anyway). -/
theorem aaaiLoop1_not_pageRange (title : String) :
    ∀ (found : Bool) (lines : List String) (l : String),
      aaaiLoop1 title found lines = some l → isPageRange l = false
  | _, [], _, h => nomatch h
  | found, line :: rest, l, h => by
    unfold aaaiLoop1 at h
    split_ifs at h with h1 h2 h3 h4 h5 h6
    · exact aaaiLoop1_not_pageRange title true rest l h
    · injection h with h7
      subst h7
      simpa using h4
    · exact aaaiLoop1_not_pageRange title found rest l h
    · exact aaaiLoop1_not_pageRange title found rest l h
    · exact aaaiLoop1_not_pageRange title found rest l h
    · exact aaaiLoop1_not_pageRange title found rest l h

/-- A line accepted by the fallback AAAI scanning loop is never a
page-range line: page-range lines are skipped before any acceptance. -/
theorem aaaiLoop2_not_pageRange (title : String) :
    ∀ (lines : List String) (l : String),
      aaaiLoop2 title lines = some l → isPageRange l = false
  | [], _, h => nomatch h
  | line :: rest, l, h => by
    unfold aaaiLoop2 at h
    split_ifs at h with h1 h2 h3 h4 h5 h6
    · exact aaaiLoop2_not_pageRange title rest l h
    · exact aaaiLoop2_not_pageRange title rest l h
    · exact aaaiLoop2_not_pageRange title rest l h
    · injection h with h7
      subst h7
      simpa using h2
    · exact aaaiLoop2_not_pageRange title rest l h
    · exact aaaiLoop2_not_pageRange title rest l h
    · exact aaaiLoop2_not_pageRange title rest l h

/-- C8: on the specification's fragment — title `Robust Estimation of X, Y`,
page-range line `45-53`, author line `A. Smith, B. Lee` — the extractor
returns the two authors (the first loop stops at the page-range line, the
fallback loop recovers the author line); and in every fragment, a line
matching the digits-hyphen-digits page-range pattern is never the accepted
author line. -/
theorem c8_author_extraction :
    aaai_extract_authors "Robust Estimation of X, Y"
        ["Robust Estimation of X, Y", "45-53", "A. Smith, B. Lee"] =
      ["A. Smith", "B. Lee"] ∧
    (∀ (title : String) (lines : List String) (l : String),
      aaai_author_line title lines = some l → isPageRange l = false) := by
  constructor
  · rfl
  · intro title lines l h
    unfold aaai_author_line at h
    rcases h1 : aaaiLoop1 title false lines with _ | l1
    · rw [h1] at h
      exact aaaiLoop2_not_pageRange title lines l h
    · rw [h1] at h
      cases h
      exact aaaiLoop1_not_pageRange title false lines l h1

/-- Witness for C8's universally quantified part: a concrete fragment whose
accepted author line is `A. Smith, B. Lee`, which is indeed not a
page-range line. -/
theorem c8_author_extraction_witness :
    isPageRange "A. Smith, B. Lee" = false :=
  c8_author_extraction.2 "" ["A. Smith, B. Lee"] "A. Smith, B. Lee" rfl

/-- C9: the ICLR adapter dispatches the schema on the year — at or above
the 2024 cutoff it uses API version 2 and reads the title through the
wrapped map (`content['title']['value']`, with `''` as default), below the
cutoff it uses API version 1 and reads the flat map (`content['title']`);
and a lookup that raises (timeout or any other error) makes
`get_all_papers` return the empty list instead of propagating. -/
theorem c9_schema_dispatch :
    (∀ year : Int, 2024 ≤ year → api_version year = 2) ∧
    (∀ year : Int, year < 2024 → api_version year = 1) ∧
    (∀ (year : Int) (note : Note) (content kvs : List (String × OVal)) (info : NoteInfo),
      2024 ≤ year → note.content = some content →
      oDictGet content "title" = some (.obj kvs) →
      parse_note year note = .ok info →
      info.title = (oDictGet kvs "value").getD (.str "")) ∧
    (∀ (year : Int) (note : Note) (content : List (String × OVal)) (info : NoteInfo),
      year < 2024 → note.content = some content →
      parse_note year note = .ok info →
      info.title = (oDictGet content "title").getD (.str "")) ∧
    (∀ year : Int, get_all_papers year (.error ()) = []) := by
  refine ⟨?_, ?_, ?_, ?_, fun _ => rfl⟩
  · intro year hy
    simp [api_version, hy]
  · intro year hy
    simp [api_version, not_le.mpr hy]
  · intro year note content kvs info hy hc htitle hok
    have hv : api_version year = 2 := by simp [api_version, hy]
    have ht2 : v2_field content "title" (.str "") =
        .ok ((oDictGet kvs "value").getD (.str "")) := by
      unfold v2_field
      rw [htitle]
      rfl
    unfold parse_note at hok
    rw [hc, hv] at hok
    simp only [Nat.reduceBEq, if_true, ht2] at hok
    rcases ha : v2_field content "authors" (.list []) with e | a
    · simp only [ha] at hok
      exact nomatch hok
    · rcases hp : v2_field content "pdf" (.str "") with e | pv
      · simp only [ha, hp] at hok
        exact nomatch hok
      · simp only [ha, hp] at hok
        cases hok
        rfl
  · intro year note content info hy hc hok
    have hv : api_version year = 1 := by simp [api_version, not_le.mpr hy]
    unfold parse_note at hok
    rw [hc, hv] at hok
    simp only [Nat.reduceBEq, Bool.false_eq_true, if_false] at hok
    cases hok
    rfl

/-- Witness for C9: concrete version-2 and version-1 notes and a failing
lookup.  The 2024 note stores its title wrapped; the 2023 note stores it
flat; the failing lookup yields the empty record list. -/
theorem c9_schema_dispatch_witness :
    api_version 2024 = 2 ∧ api_version 2023 = 1 ∧
    (NoteInfo.title ⟨.str "Deep", .list [], "", "ICLR", 2024⟩ = .str "Deep") ∧
    (NoteInfo.title ⟨.str "Flat", .list [], "", "ICLR", 2023⟩ = .str "Flat") ∧
    get_all_papers 2024 (.error ()) = [] := by
  refine ⟨c9_schema_dispatch.1 2024 (by decide), c9_schema_dispatch.2.1 2023 (by decide),
    ?_, ?_, c9_schema_dispatch.2.2.2.2 2024⟩
  · exact c9_schema_dispatch.2.2.1 2024 ⟨"n1", some [("title", .obj [("value", .str "Deep")])]⟩
      [("title", .obj [("value", .str "Deep")])] [("value", .str "Deep")]
      ⟨.str "Deep", .list [], "", "ICLR", 2024⟩ (by decide) rfl rfl rfl
  · exact c9_schema_dispatch.2.2.2.1 2023 ⟨"n1", some [("title", .str "Flat")]⟩
      [("title", .str "Flat")] ⟨.str "Flat", .list [], "", "ICLR", 2023⟩
      (by decide) rfl rfl
